import Mathlib

/-!
Verification development for the Field-Aided-RRT repository
(`src/farrt/rrtstar.py`, `src/farrt/farrtstar2.py`, `src/farrt/world.py`,
`src/farrt/PartiallyObservablePlanner.py`).

The Python planner state is shallowly embedded: vertices are exact
coordinate pairs (the repository keys all maps on `pt2tuple(pt) =
(x, y)` with exact equality, per the data model), numeric values are
rationals, Python dictionaries become association lists or functions
with `Option` results, and a Python call that raises is a value
carrying a `PyErr`.  External geometry/array collaborators
(shapely, numpy, scipy) are modelled at their interfaces, as the
specification scopes them out of the core.
-/

/-- Vertex key: an exact 2D coordinate pair, the hashable form
`pt2tuple(pt) = (x, y)` used by every planner map. -/
abbrev Vtx : Type := ℚ × ℚ

/-- Python exception kinds raised by the embedded code paths. -/
inductive PyErr where
  | typeError
  | attributeError
  | valueError
  | assertionError
  | queueEmptyErr
deriving DecidableEq, Repr

/- ---------------------------------------------------------------
Method tables of the three planner classes, transcribed from the
`def` statements of `src/farrt/rrtstar.py` (class `RRTStar`),
`src/farrt/farrtstar2.py` (class `FARRTStar2`) and
`src/farrt/PartiallyObservablePlanner.py`.  Attribute lookup on a
`FARRTStar2` instance resolves against the union of the three.
--------------------------------------------------------------- -/

/-- Methods defined on class `RRTStar` (rrtstar.py). -/
def rrtstar_method_names : List String :=
  ["__init__", "handle_new_obstacles", "handle_deleted_obstacles",
   "update_plan", "do_first_plan", "replan", "sample_free",
   "find_nearest", "steer", "edge_obstacle_free", "find_nearby_pts",
   "get_min_cost_point", "add_start_vertex", "add_vertex",
   "reassign_parent", "do_rrtstar_rewiring", "reached_goal",
   "build_rrt_tree", "extract_path", "get_parent", "get_children",
   "set_child_parent", "get_cost_to_reach", "set_cost_to_reach",
   "get_edge_cost", "get_render_kwargs"]

/-- Methods defined on class `FARRTStar2` (farrtstar2.py). -/
def farrtstar2_method_names : List String :=
  ["__init__", "setup_planner", "replan", "sever_connections",
   "do_tree_severing", "update_potential_field", "merge_points",
   "apply_field_to_pt", "do_farrt_rewiring", "verify_queue",
   "get_key", "test_key_less", "insertPQ", "updatePQ", "popPQ",
   "queue_not_empty", "get_render_kwargs"]

/-- Methods defined on class `PartiallyObservablePlanner`
(PartiallyObservablePlanner.py). -/
def partially_observable_planner_method_names : List String :=
  ["__init__", "default_run_count", "observe_world", "update_plan",
   "handle_new_obstacles", "handle_deleted_obstacles",
   "step_through_plan", "run", "get_render_kwargs", "tmp_img_path",
   "render", "save_gif", "delete_tmps"]

/-- Every method name an attribute lookup on a `FARRTStar2` instance
can resolve to. -/
def all_method_names : List String :=
  farrtstar2_method_names ++ rrtstar_method_names ++
    partially_observable_planner_method_names

/-- Parameter names of `RRTStar.find_nearest` after `self`
(`def find_nearest(self, x_rand: Point)`, rrtstar.py line 151);
the signature has no `**kwargs`, so any other keyword raises
`TypeError`. -/
def find_nearest_params : List String := ["x_rand"]

/-- A Python call supplying keyword arguments `passed` succeeds at
binding time iff every keyword is among the accepted parameter
names (no `**kwargs` catch-all in any planner signature). -/
def py_kwargs_accepted (accepted : List String) (passed : List String) : Bool :=
  passed.all (fun kw => accepted.contains kw)

/- ---------------------------------------------------------------
Inconsistency priority queue (farrtstar2.py lines 395-458).
The `queue.PriorityQueue` is modelled as the list of pending
entries in the order `get` would deliver them (ascending
`(key, vertex)`), and `queue_key_map` as an association list.
--------------------------------------------------------------- -/

/-- A Python value flowing through `popPQ`'s loop variable: either a
vertex tuple `(x, y)` or a whole heap entry `(key, (x, y))` (the
loop body of `popPQ` assigns the undestructured `get()` result). -/
inductive PyVal where
  | pt : Vtx → PyVal
  | tup : ℚ → Vtx → PyVal
deriving DecidableEq, Repr

/-- Dictionary lookup in `queue_key_map` (keys are vertex tuples). -/
def lookupVtx : List (Vtx × ℚ) → Vtx → Option ℚ
  | [], _ => none
  | (q, k) :: rest, p => if q = p then some k else lookupVtx rest p

/-- Membership/lookup test `point in queue_key_map` /
`queue_key_map[point]` for a loop value: a `(key, vertex)` tuple is
never a key of the map (its keys are vertex tuples). -/
def keyMapLookup (m : List (Vtx × ℚ)) : PyVal → Option ℚ
  | PyVal.pt p => lookupVtx m p
  | PyVal.tup _ _ => none

/-- Dictionary `pop` of a vertex key from `queue_key_map`. -/
def eraseVtxKeyList : List (Vtx × ℚ) → Vtx → List (Vtx × ℚ)
  | [], _ => []
  | (q, k) :: rest, p => if q = p then rest else (q, k) :: eraseVtxKeyList rest p

/-- `queue_key_map.pop(point)` for a loop value (only ever executed
when the preceding lookup succeeded, hence on a vertex value). -/
def eraseVtxKey (m : List (Vtx × ℚ)) : PyVal → List (Vtx × ℚ)
  | PyVal.pt p => eraseVtxKeyList m p
  | PyVal.tup _ _ => m

/-- The `while` loop of `FARRTStar2.popPQ` (farrtstar2.py lines
442-443):

    while point not in self.queue_key_map or self.queue_key_map[point] != key:
      point = self.rewiringPQ.get(block=False)

`key` is never reassigned inside the loop, and the loop body binds
the whole `(key, point)` pair from `get` to `point`.  On exit,
`queue_key_map.pop(point)` runs, and `point` is returned; an empty
heap makes `get(block=False)` raise `queue.Empty`. -/
def popPQloop (m : List (Vtx × ℚ)) (key : ℚ) :
    List (ℚ × Vtx) → PyVal →
    Except PyErr (PyVal × List (ℚ × Vtx) × List (Vtx × ℚ))
  | heap, point =>
    if keyMapLookup m point = some key then
      Except.ok (point, heap, eraseVtxKey m point)
    else
      match heap with
      | [] => Except.error PyErr.queueEmptyErr
      | e :: rest => popPQloop m key rest (PyVal.tup e.1 e.2)

/-- `FARRTStar2.popPQ` (farrtstar2.py lines 436-445): the first
`get` destructures `key, point = self.rewiringPQ.get(block=False)`,
then the loop above runs.  Returns the final loop value together
with the remaining heap and key map. -/
def popPQ (heap : List (ℚ × Vtx)) (m : List (Vtx × ℚ)) :
    Except PyErr (PyVal × List (ℚ × Vtx) × List (Vtx × ℚ)) :=
  match heap with
  | [] => Except.error PyErr.queueEmptyErr
  | e :: rest => popPQloop m e.1 rest (PyVal.pt e.2)

/-- `FARRTStar2.get_key` (farrtstar2.py lines 395-401).  The body is

    nearest = self.find_nearest(as_point(pt), pt_source=self.rrt_tree)
    cost = self.get_cost_to_goal(nearest) + self.get_edge_cost(nearest, pt)

The first statement passes keyword `pt_source`, which
`RRTStar.find_nearest` does not accept, so the call raises
`TypeError` before anything else runs; were it accepted, the
attribute lookup `self.get_cost_to_goal` would raise
`AttributeError` (no class defines it).  The `ok` branch below is
behind two concretely-false guards and stands for the unreachable
successful key computation. -/
def get_key (pt : Vtx) : Except PyErr ℚ :=
  if py_kwargs_accepted find_nearest_params ["pt_source"] then
    if all_method_names.contains ("get_cost_to_goal") then
      Except.ok (pt.1 * 0)
    else Except.error PyErr.attributeError
  else Except.error PyErr.typeError

/-- Ascending `(key, vertex)` order of Python's `PriorityQueue` on
`(float, tuple)` entries. -/
def entryLe (a b : ℚ × Vtx) : Bool :=
  decide (a.1 < b.1) ||
    (decide (a.1 = b.1) &&
      (decide (a.2.1 < b.2.1) ||
        (decide (a.2.1 = b.2.1) && decide (a.2.2 ≤ b.2.2))))

/-- `PriorityQueue.put`: insert an entry keeping delivery order. -/
def pushHeap : List (ℚ × Vtx) → ℚ × Vtx → List (ℚ × Vtx)
  | [], e => [e]
  | f :: rest, e => if entryLe e f then e :: f :: rest else f :: pushHeap rest e

/-- Replace a vertex's entry in `queue_key_map`. -/
def setKeyMap (m : List (Vtx × ℚ)) (pt : Vtx) (k : ℚ) : List (Vtx × ℚ) :=
  (pt, k) :: eraseVtxKeyList m pt

/-- `FARRTStar2.insertPQ` (farrtstar2.py lines 410-421): compute the
key (which raises, see `get_key`), then insert only if absent. -/
def insertPQ (heap : List (ℚ × Vtx)) (key_map : List (Vtx × ℚ)) (pt : Vtx) :
    Except PyErr (List (ℚ × Vtx) × List (Vtx × ℚ)) :=
  match get_key pt with
  | Except.error e => Except.error e
  | Except.ok key =>
    if (lookupVtx key_map pt).isNone then
      Except.ok (pushHeap heap (key, pt), (pt, key) :: key_map)
    else
      Except.ok (heap, key_map)

/-- `FARRTStar2.updatePQ` (farrtstar2.py lines 423-434): compute the
key (which raises, see `get_key`), then replace only if present. -/
def updatePQ (heap : List (ℚ × Vtx)) (key_map : List (Vtx × ℚ)) (pt : Vtx) :
    Except PyErr (List (ℚ × Vtx) × List (Vtx × ℚ)) :=
  match get_key pt with
  | Except.error e => Except.error e
  | Except.ok key =>
    if (lookupVtx key_map pt).isSome then
      Except.ok (pushHeap heap (key, pt), setKeyMap key_map pt key)
    else
      Except.ok (heap, key_map)

/-- `FARRTStar2.verify_queue` (farrtstar2.py lines 385-393). -/
def verify_queue (heap : List (ℚ × Vtx)) (key_map : List (Vtx × ℚ)) (pt : Vtx) :
    Except PyErr (List (ℚ × Vtx) × List (Vtx × ℚ)) :=
  if (lookupVtx key_map pt).isSome then updatePQ heap key_map pt
  else insertPQ heap key_map pt

/-- Concrete vertex used by the stale-queue counterexample. -/
def pA : Vtx := ((3 : ℚ), (4 : ℚ))

/-- C2: for every point, `get_key` raises (the `pt_source` keyword is
not accepted by `RRTStar.find_nearest`, and `get_cost_to_goal`
resolves on no planner class), hence `insertPQ`, `updatePQ` and
`verify_queue` raise instead of touching the queue. -/
theorem get_key_and_queue_ops_always_raise
    (pt : Vtx) (heap : List (ℚ × Vtx)) (key_map : List (Vtx × ℚ)) :
    get_key pt = Except.error PyErr.typeError
    ∧ insertPQ heap key_map pt = Except.error PyErr.typeError
    ∧ updatePQ heap key_map pt = Except.error PyErr.typeError
    ∧ verify_queue heap key_map pt = Except.error PyErr.typeError
    ∧ py_kwargs_accepted find_nearest_params ["pt_source"] = false
    ∧ all_method_names.contains ("get_cost_to_goal") = false := by
  refine ⟨rfl, rfl, rfl, ?_, rfl, rfl⟩
  unfold verify_queue
  split <;> rfl

/-- C3: with the stale entry `(1, pA)` in front of the live entry
`(2, pA)` (the key map holds `pA ↦ 2`), `popPQ` raises
`queue.Empty` instead of discarding the stale entry and returning
`pA`: the loop body rebinds `point` to the whole `(key, point)`
pair, which is never a key of `queue_key_map`, so the loop drains
the heap. -/
theorem popPQ_raises_empty_on_stale_head :
    popPQ [(1, pA), (2, pA)] [(pA, 2)] = Except.error PyErr.queueEmptyErr
    ∧ keyMapLookup [(pA, 2)] (PyVal.pt pA) = some 2 := by
  constructor
  · rfl
  · rfl

/- ---------------------------------------------------------------
Tree store (rrtstar.py lines 44-49, 219-273, 385-427) and
severing (farrtstar2.py lines 94-117).  `rrt_tree` (a shapely
MultiPoint) and `rrt_vertices` (a set of tuples) are lists of
vertex keys; `rrt_edges` is the set of ordered pairs;
`child_to_parent_map` is a dict; `parent_to_children_map` is a
`defaultdict(set)`, so it carries both its key set (accessing a
missing key inserts it) and its value function.
--------------------------------------------------------------- -/

/-- Planner tree state: the five structures of the tree store. -/
structure TreeState where
  rrt_tree : List Vtx
  rrt_vertices : List Vtx
  rrt_edges : List (Vtx × Vtx)
  child_to_parent_map : Vtx → Option Vtx
  parent_to_children_keys : List Vtx
  parent_to_children_map : Vtx → List Vtx
  cost_to_reach : Vtx → Option (WithTop ℚ)

/-- Set-style insert into a vertex list. -/
def insertVtx (v : Vtx) (l : List Vtx) : List Vtx :=
  if v ∈ l then l else v :: l

/-- Point-update of the cost dictionary. -/
def setCostVal (f : Vtx → Option (WithTop ℚ)) (v : Vtx) (c : WithTop ℚ) :
    Vtx → Option (WithTop ℚ) :=
  fun w => if w = v then some c else f w

/-- `self.rrt_edges.discard((a,b)); self.rrt_edges.discard((b,a))`. -/
def removeEdgePair (s : TreeState) (a b : Vtx) : TreeState :=
  { s with rrt_edges :=
      s.rrt_edges.filter (fun e => !(decide (e = (a, b)) || decide (e = (b, a)))) }

/-- `RRTStar.set_child_parent` (rrtstar.py lines 399-421).

    old_parent = self.get_parent(child, allow_none=True)
    if old_parent is not None:
      self.get_children(old_parent).discard(child)
    if parent is None and child in self.parent_to_children_map:
      del self.child_to_parent_map[child]
      return
    parent = pt2tuple(parent)
    self.child_to_parent_map[child] = parent
    self.parent_to_children_map[parent].add(child)

`get_children` is a `defaultdict` access and inserts its key.  When
`parent` is `None` but `child` is not a key of
`parent_to_children_map`, control falls through to
`pt2tuple(parent)`.  `pt2tuple` lives in `farrt/utils.py`, which is
not part of the sources; modelled from the spec: tree keys are exact
coordinate pairs extracted from a point, so extracting a pair from
`None` raises.  The returned state is the mutated instance at
return or at the raise. -/
def set_child_parent (s : TreeState) (child : Vtx) (parent : Option Vtx) :
    TreeState × Option PyErr :=
  let s1 : TreeState :=
    match s.child_to_parent_map child with
    | some op =>
      { s with
        parent_to_children_keys := insertVtx op s.parent_to_children_keys,
        parent_to_children_map := fun v =>
          if v = op then (s.parent_to_children_map op).erase child
          else s.parent_to_children_map v }
    | none => s
  match parent with
  | none =>
    if child ∈ s1.parent_to_children_keys then
      ({ s1 with child_to_parent_map := fun v =>
          if v = child then none else s1.child_to_parent_map v }, none)
    else
      (s1, some PyErr.attributeError)
  | some p =>
    ({ s1 with
        child_to_parent_map := fun v =>
          if v = child then some p else s1.child_to_parent_map v,
        parent_to_children_keys := insertVtx p s1.parent_to_children_keys,
        parent_to_children_map := fun v =>
          if v = p then insertVtx child (s1.parent_to_children_map v)
          else s1.parent_to_children_map v }, none)

/-- `RRTStar.add_start_vertex` (rrtstar.py lines 219-229): union the
point into the tree, add the vertex, set cost 0. -/
def add_start_vertex (s : TreeState) (x : Vtx) : TreeState :=
  { s with
    rrt_tree := insertVtx x s.rrt_tree,
    rrt_vertices := insertVtx x s.rrt_vertices,
    cost_to_reach := setCostVal s.cost_to_reach x 0 }

/-- `RRTStar.add_vertex` (rrtstar.py lines 231-244): union the point
into the tree, add vertex and edge `(parent, pt)`, link
child/parent, set the cost.  (`set_child_parent` with a non-`None`
parent never raises.) -/
def add_vertex (s : TreeState) (pt parent : Vtx) (cost : ℚ) : TreeState :=
  let s1 : TreeState :=
    { s with
      rrt_tree := insertVtx pt s.rrt_tree,
      rrt_vertices := insertVtx pt s.rrt_vertices,
      rrt_edges := (parent, pt) :: s.rrt_edges.filter (fun e => !decide (e = (parent, pt))) }
  let s2 := (set_child_parent s1 pt (some parent)).1
  { s2 with cost_to_reach := setCostVal s2.cost_to_reach pt (WithTop.some cost) }

/-- `RRTStar.reassign_parent` (rrtstar.py lines 246-273):
`get_parent(pt)` raises `ValueError` when `pt` has no parent; a
same-parent reassignment returns (if allowed) or raises; otherwise
the old edges are discarded, the new edge added, the link moved,
and the assertion `vtx not in self.get_children(prev_parent)`
checked (the two `get_children` accesses insert `prev` as a
defaultdict key). -/
def reassign_parent (s : TreeState) (pt parent : Vtx) (cost : ℚ)
    (allow_same_parent : Bool) : TreeState × Option PyErr :=
  match s.child_to_parent_map pt with
  | none => (s, some PyErr.valueError)
  | some prev =>
    if prev = parent then
      if allow_same_parent then (s, none) else (s, some PyErr.valueError)
    else
      let s1 := removeEdgePair s prev pt
      let s2 : TreeState :=
        { s1 with rrt_edges :=
            (parent, pt) :: s1.rrt_edges.filter (fun e => !decide (e = (parent, pt))) }
      let s3 := (set_child_parent s2 pt (some parent)).1
      let s4 : TreeState :=
        { s3 with parent_to_children_keys := insertVtx prev s3.parent_to_children_keys }
      if pt ∈ s4.parent_to_children_map prev then (s4, some PyErr.assertionError)
      else ({ s4 with cost_to_reach := setCostVal s4.cost_to_reach pt (WithTop.some cost) }, none)

/-- Whether the attribute lookup `self.set_cost_to_goal` at the end
of `FARRTStar2.sever_connections` (farrtstar2.py line 117) resolves
on any planner class.  It does not: only `set_cost_to_reach` is
defined. -/
def set_cost_to_goal_defined : Bool :=
  all_method_names.contains ("set_cost_to_goal")

/-- Parent-unlinking stage of `FARRTStar2.sever_connections`
(farrtstar2.py lines 101-106): if a parent exists, discard both
edge orientations and clear the link. -/
def sever_parent_stage (s : TreeState) (pt : Vtx) : TreeState × Option PyErr :=
  match s.child_to_parent_map pt with
  | some pv => set_child_parent (removeEdgePair s pt pv) pt none
  | none => (s, none)

/-- Child loop of `FARRTStar2.sever_connections` (farrtstar2.py
lines 108-112): for each child, discard both edge orientations and
set its parent to `None`; a raise aborts the loop with the state
mutated so far. -/
def sever_children_loop (vtx : Vtx) : List Vtx → TreeState → TreeState × Option PyErr
  | [], s => (s, none)
  | c :: cs, s =>
    match set_child_parent (removeEdgePair s vtx c) c none with
    | (s2, some e) => (s2, some e)
    | (s2, none) => sever_children_loop vtx cs s2

/-- Final stage of `FARRTStar2.sever_connections` (farrtstar2.py
lines 114-117): drop the vertex from `rrt_vertices` and from the
tree multipoint (`multipoint_without` is in the absent
`farrt/utils.py`; modelled from the spec: severed vertices
disappear from `tree_geom`), then execute
`self.set_cost_to_goal(pt, float('inf'))`, whose attribute lookup
raises `AttributeError` because no class defines it. -/
def sever_finish (s : TreeState) (pt : Vtx) : TreeState × Option PyErr :=
  let s2 : TreeState :=
    { s with
      rrt_vertices := s.rrt_vertices.erase pt,
      rrt_tree := s.rrt_tree.erase pt }
  if set_cost_to_goal_defined then
    ({ s2 with cost_to_reach := setCostVal s2.cost_to_reach pt ⊤ }, none)
  else
    (s2, some PyErr.attributeError)

/-- `FARRTStar2.sever_connections` (farrtstar2.py lines 94-117),
composed of the three stages above; `list(self.get_children(pt))`
is a defaultdict access, so it inserts `pt` as a key before the
child loop runs. -/
def sever_connections (s : TreeState) (pt : Vtx) : TreeState × Option PyErr :=
  match sever_parent_stage s pt with
  | (s1, some e) => (s1, some e)
  | (s1, none) =>
    let children := s1.parent_to_children_map pt
    let s2 : TreeState :=
      { s1 with parent_to_children_keys := insertVtx pt s1.parent_to_children_keys }
    match sever_children_loop pt children s2 with
    | (s3, some e) => (s3, some e)
    | (s3, none) => sever_finish s3 pt

/-- C1: `sever_connections` raises on every state and vertex — at
the latest at `self.set_cost_to_goal(pt, float('inf'))`, whose
attribute is defined on no planner class — so it never completes
the removals and never sets `cost[v] = +∞`. -/
theorem sever_connections_always_raises (s : TreeState) (pt : Vtx) :
    (sever_connections s pt).2.isSome = true
    ∧ all_method_names.contains ("set_cost_to_goal") = false := by
  refine ⟨?_, rfl⟩
  unfold sever_connections
  rcases h1 : sever_parent_stage s pt with ⟨s1, e1⟩
  cases e1 with
  | some e => simp
  | none =>
    simp only
    rcases h2 : sever_children_loop pt (s1.parent_to_children_map pt)
        { s1 with parent_to_children_keys := insertVtx pt s1.parent_to_children_keys }
      with ⟨s3, e3⟩
    cases e3 with
    | some e => simp
    | none =>
      have hres : set_cost_to_goal_defined = false := rfl
      simp [sever_finish, hres]

/-- The empty tree store. -/
def treeStateEmpty : TreeState :=
  { rrt_tree := [], rrt_vertices := [], rrt_edges := [],
    child_to_parent_map := fun _ => none,
    parent_to_children_keys := [],
    parent_to_children_map := fun _ => [],
    cost_to_reach := fun _ => none }

/-- Root `(0,0)` with a single child `(1,0)`, built by the public
mutations. -/
def twoVertexTree : TreeState :=
  add_vertex (add_start_vertex treeStateEmpty ((0 : ℚ), (0 : ℚ)))
    ((1 : ℚ), (0 : ℚ)) ((0 : ℚ), (0 : ℚ)) 1

/-- C7: after the public mutation `sever_connections((1,0))` on the
two-vertex tree, the child-to-parent map still sends `(1,0)` to
`(0,0)` while the children set of `(0,0)` no longer contains
`(1,0)`: the biconditional `v ∈ children[u] ⇔ parent[v] = u` is
violated at `u = (0,0)`, `v = (1,0)` (the `parent=None` branch of
`set_child_parent` tests membership in `parent_to_children_map`
instead of `child_to_parent_map`, skips the delete for a leaf, and
raises at `pt2tuple(None)` after the one-sided discard). -/
theorem sever_breaks_child_parent_invariant :
    ((sever_connections twoVertexTree ((1 : ℚ), (0 : ℚ))).1.child_to_parent_map
        ((1 : ℚ), (0 : ℚ)) = some ((0 : ℚ), (0 : ℚ)))
    ∧ (((sever_connections twoVertexTree ((1 : ℚ), (0 : ℚ))).1.parent_to_children_map
        ((0 : ℚ), (0 : ℚ))).contains ((1 : ℚ), (0 : ℚ)) = false) := by
  constructor
  · rfl
  · rfl

/- ---------------------------------------------------------------
Goal test and first-build sampling (rrtstar.py lines 288-354).
--------------------------------------------------------------- -/

/-- Squared Euclidean distance between two vertices. -/
def sqDist (p q : Vtx) : ℚ :=
  (p.1 - q.1) ^ 2 + (p.2 - q.2) ^ 2

/-- The comparison `p.distance(q) < c` on the (nonnegative, real)
Euclidean distance, expressed exactly over the rationals: for
`d ≥ 0`, `d < c` holds iff `c > 0` and `d² < c²`. -/
def distance_lt (p q : Vtx) (c : ℚ) : Bool :=
  decide (0 < c) && decide (sqDist p q < c ^ 2)

/-- Parameters of `RRTStar.reached_goal` read from the instance:
`self.x_goal_pt` and `self.goal_reached_thresh` (the latter is set
to `1` in `__init__` and never changed). -/
structure GoalParams where
  x_goal_pt : Vtx
  goal_reached_thresh : ℚ

/-- `RRTStar.reached_goal` (rrtstar.py lines 288-298):

    if goal is None: goal = self.x_goal_pt
    if threshold is None: threshold = self.goal_reached_thresh
    return x_new.distance(goal) < self.goal_reached_thresh

The local `threshold` is computed and then unused — the comparison
reads `self.goal_reached_thresh`. -/
def reached_goal (s : GoalParams) (x_new : Vtx) (goal : Option Vtx)
    (threshold : Option ℚ) : Bool :=
  let g := goal.getD s.x_goal_pt
  let _threshold := threshold.getD s.goal_reached_thresh
  distance_lt x_new g s.goal_reached_thresh

/-- Goal parameters of a planner instance with the default
`goal_reached_thresh = 1` (rrtstar.py line 53). -/
def defaultGoalParams : GoalParams :=
  { x_goal_pt := ((90 : ℚ), (90 : ℚ)), goal_reached_thresh := 1 }

/-- C5: `reached_goal((0,0), goal=(1/2,0), threshold=0)` returns
`True` — the supplied threshold `0` is ignored and the instance
default `1` is compared against — although the Euclidean distance
`1/2` is not below the supplied threshold `0`. -/
theorem reached_goal_ignores_supplied_threshold :
    reached_goal defaultGoalParams ((0 : ℚ), (0 : ℚ))
        (some ((1 / 2 : ℚ), (0 : ℚ))) (some 0) = true
    ∧ distance_lt ((0 : ℚ), (0 : ℚ)) ((1 / 2 : ℚ), (0 : ℚ)) 0 = false := by
  constructor
  · unfold reached_goal distance_lt
    simp only [Option.getD_some, defaultGoalParams, sqDist, Bool.and_eq_true,
      decide_eq_true_eq]
    norm_num
  · unfold distance_lt
    simp

/-- Buffer radius argument of the `sample_free` call inside
`RRTStar.build_rrt_tree` (rrtstar.py line 326):

    buffer_radius=0 if i > self.iters/2 and final_pt is None
                   else self.obstacle_avoidance_radius

(`i > self.iters/2` is Python true division, hence an exact
rational comparison). -/
def build_rrt_buffer_radius_arg (iters i : ℕ) (final_pt : Option Vtx)
    (obstacle_avoidance_radius : ℚ) : ℚ :=
  if (iters : ℚ) / 2 < (i : ℚ) ∧ final_pt = none then 0
  else obstacle_avoidance_radius

/-- C4 counterexample: with `iters = 2000`, at iteration `i = 1001`
(past the midpoint) and no goal-reaching vertex recorded, the
radius passed to `sample_free` is `0`, not half the obstacle
avoidance radius (here `20/9`, whose half is `10/9 ≠ 0`). -/
theorem buffer_radius_after_midpoint_not_half :
    build_rrt_buffer_radius_arg 2000 1001 none (20 / 9) = 0
    ∧ decide ((0 : ℚ) = (20 / 9) / 2) = false := by
  constructor
  · unfold build_rrt_buffer_radius_arg
    rw [if_pos]
    exact ⟨by norm_num, rfl⟩
  · simp only [decide_eq_false_iff_not]
    norm_num

/-- C4 amended: past the midpoint with no goal-reaching vertex
recorded the radius passed to `sample_free` is `0`; at or before
the midpoint, or once a goal-reacher is recorded, it is
`obstacle_avoidance_radius`. -/
theorem buffer_radius_after_midpoint_zero (iters i : ℕ)
    (final_pt : Option Vtx) (oar : ℚ) :
    ((iters : ℚ) / 2 < (i : ℚ) ∧ final_pt = none →
      build_rrt_buffer_radius_arg iters i final_pt oar = 0)
    ∧ ((i : ℚ) ≤ (iters : ℚ) / 2 →
      build_rrt_buffer_radius_arg iters i final_pt oar = oar)
    ∧ (∀ v : Vtx, final_pt = some v →
      build_rrt_buffer_radius_arg iters i final_pt oar = oar) := by
  refine ⟨fun h => ?_, fun h => ?_, fun v h => ?_⟩
  · unfold build_rrt_buffer_radius_arg
    rw [if_pos h]
  · unfold build_rrt_buffer_radius_arg
    rw [if_neg]
    intro hc
    exact absurd hc.1 (not_lt.mpr h)
  · unfold build_rrt_buffer_radius_arg
    rw [if_neg]
    intro hc
    rw [h] at hc
    exact Option.some_ne_none v hc.2

/-- Witness for `buffer_radius_after_midpoint_zero` at
`iters = 2000`, `i = 1001`, no final point, radius `20/9`. -/
theorem buffer_radius_after_midpoint_zero_witness :
    build_rrt_buffer_radius_arg 2000 1001 none (20 / 9) = 0 :=
  (buffer_radius_after_midpoint_zero 2000 1001 none (20 / 9)).1
    ⟨by norm_num, rfl⟩

/- ---------------------------------------------------------------
Loop guards of the two planning loops (rrtstar.py line 319,
farrtstar2.py lines 318-323).
--------------------------------------------------------------- -/

/-- Guard of `RRTStar.build_rrt_tree`'s loop (rrtstar.py line 319):
`while i < self.iters or final_pt is None`. -/
def build_rrt_loop_guard (iters i : ℕ) (final_pt : Option Vtx) : Bool :=
  decide (i < iters) || final_pt.isNone

/-- Guard of `FARRTStar2.do_farrt_rewiring`'s loop (farrtstar2.py
lines 318-323): `(queue_not_empty() and (... inconsistency
disjunction ...)) or final_pt is None`; the queue test and the
inconsistency disjunction are abstracted as the booleans they
evaluate to. -/
def farrt_rewiring_loop_guard (queue_nonempty inconsistent : Bool)
    (final_pt : Option Vtx) : Bool :=
  (queue_nonempty && inconsistent) || final_pt.isNone

/-- C8 counterexample: with no goal-reaching vertex recorded both
guards stay true at iteration counts beyond the claimed caps
(`i = 5000 ≥ iters = 2000`, and a false queue condition for the
rewiring loop past `max(iters, 5000)`), so neither loop stops at a
cap. -/
theorem loop_guards_true_beyond_caps :
    build_rrt_loop_guard 2000 5000 none = true
    ∧ farrt_rewiring_loop_guard false false none = true := by
  constructor
  · rfl
  · rfl

/-- C8 amended: the build loop exits exactly when `i ≥ iters` and a
final point has been recorded; the rewiring loop exits exactly when
its queue/inconsistency conjunction is false and a final point has
been recorded.  While `final_pt` is `None`, both guards are true at
every iteration count: there is no safety cap. -/
theorem loop_guards_exit_characterization (iters i : ℕ) (qc ic : Bool)
    (fp : Option Vtx) :
    (build_rrt_loop_guard iters i fp = false ↔ iters ≤ i ∧ fp.isSome = true)
    ∧ (farrt_rewiring_loop_guard qc ic fp = false ↔
        (qc && ic) = false ∧ fp.isSome = true) := by
  cases fp <;>
    simp [build_rrt_loop_guard, farrt_rewiring_loop_guard, Nat.not_lt]

/- ---------------------------------------------------------------
World observation (world.py lines 32-38).  The shapely geometry
library is an external collaborator: an intersection of the true
obstacles with the vision disc may be any geometry kind (polygonal
for area overlaps, a point or line for tangential contact, a
collection otherwise), so `make_observations` is modelled over the
kind of the intersection result the library hands back.
--------------------------------------------------------------- -/

/-- Shapely geometry kinds relevant to `World.make_observations`,
with enough payload to distinguish values. -/
inductive Geometry where
  | polygon : List Vtx → Geometry
  | multiPolygon : List (List Vtx) → Geometry
  | point : ℚ → ℚ → Geometry
  | lineString : List Vtx → Geometry
  | geometryCollection : ℕ → Geometry
deriving DecidableEq, Repr

/-- `World.make_observations` (world.py lines 32-38), applied to the
library's intersection result `obstacles ∩ disc(position, radius)`:

    if isinstance(obstervation, MultiPolygon): return obstervation
    elif isinstance(obstervation, Polygon): return MultiPolygon([obstervation])

Any other geometry kind matches neither branch and the function
falls off the end, returning `None`. -/
def make_observations (obstacles_cap_circle : Geometry) : Option Geometry :=
  match obstacles_cap_circle with
  | Geometry.multiPolygon ps => some (Geometry.multiPolygon ps)
  | Geometry.polygon p => some (Geometry.multiPolygon [p])
  | _ => none

/-- Whether a geometry kind is matched by the two isinstance
branches of `make_observations`. -/
def isPolygonalKind : Geometry → Bool
  | Geometry.polygon _ => true
  | Geometry.multiPolygon _ => true
  | _ => false

/-- Whether an optional result is a `MultiPolygon` value. -/
def is_multipolygon_result : Option Geometry → Bool
  | some (Geometry.multiPolygon _) => true
  | _ => false

/-- C9 counterexample: when the intersection of the obstacles with
the vision disc is a point (a tangential observation), the function
returns `None`, not a MultiPolygon. -/
theorem make_observations_point_returns_none :
    make_observations (Geometry.point 0 0) = none
    ∧ is_multipolygon_result (make_observations (Geometry.point 0 0)) = false := by
  constructor
  · rfl
  · rfl

/-- C9 amended: `make_observations` produces a value exactly when
the library intersection is a Polygon or MultiPolygon (wrapping the
lone Polygon), and every produced value is a MultiPolygon; for any
other intersection kind it returns `None`. -/
theorem make_observations_characterization (g : Geometry) :
    (make_observations g).isSome = isPolygonalKind g
    ∧ is_multipolygon_result (make_observations g) = isPolygonalKind g := by
  cases g <;> simp [make_observations, isPolygonalKind, is_multipolygon_result]

/- ---------------------------------------------------------------
Potential field (farrtstar2.py lines 191-224).  The `H×W` numpy
arrays are modelled as total functions on integer indices (the
claims concern in-grid obstacle polygons); scipy's
`gaussian_filter` (called with `sigma=3`) and `np.gradient` are
external collaborators passed in at their interface, `grad`
returning `(dy, dx)` in numpy's order.  A shapely polygon is
modelled by its interface: its bounding box and its integer-point
containment test, with containment inside the box.
--------------------------------------------------------------- -/

/-- A 2D float array indexed `[y, x]`. -/
abbrev Grid : Type := ℤ → ℤ → ℚ

/-- A shapely polygon as used by `update_potential_field`:
`obstacle.bounds = (minx, miny, maxx, maxy)` and
`obstacle.contains(Point(x, y))` on integer points; containment
implies membership in the bounding box (shapely interface fact). -/
structure ObstaclePoly where
  minx : ℚ
  miny : ℚ
  maxx : ℚ
  maxy : ℚ
  containsInt : ℤ → ℤ → Bool
  contains_in_bounds : ∀ x y : ℤ, containsInt x y = true →
    minx ≤ (x : ℚ) ∧ (x : ℚ) ≤ maxx ∧ miny ≤ (y : ℚ) ∧ (y : ℚ) ≤ maxy

/-- `np.ones(...)`. -/
def ones : Grid := fun _ _ => 1

/-- `array[y, x] = v`. -/
def setCell (m : Grid) (y x : ℤ) (v : ℚ) : Grid :=
  fun y2 x2 => if y2 = y ∧ x2 = x then v else m y2 x2

/-- Python `range(lo, hi + 1)`: the integers from `lo` to `hi`
inclusive. -/
def intRange (lo hi : ℤ) : List ℤ :=
  (List.range (hi + 1 - lo).toNat).map (fun (k : ℕ) => lo + (k : ℤ))

/-- Inner loop of the mask construction (farrtstar2.py lines
209-211): for `y` over the polygon's vertical bounding range, zero
`mask[y, x]` when the polygon contains `(x, y)`. -/
def applyPolyInner (p : ObstaclePoly) (x : ℤ) (ys : List ℤ) (m : Grid) : Grid :=
  ys.foldl (fun acc y => if p.containsInt x y then setCell acc y x 0 else acc) m

/-- Outer loop of the mask construction for one polygon
(farrtstar2.py lines 207-211): `x` ranges over
`range(floor(minx), ceil(maxx) + 1)` and `y` over
`range(floor(miny), ceil(maxy) + 1)`. -/
def applyPoly (m : Grid) (p : ObstaclePoly) : Grid :=
  (intRange (Int.floor p.minx) (Int.ceil p.maxx)).foldl
    (fun acc x =>
      applyPolyInner p x (intRange (Int.floor p.miny) (Int.ceil p.maxy)) acc) m

/-- The `obstacle_mask` built by `FARRTStar2.update_potential_field`
(farrtstar2.py lines 202-211): start from ones, then zero the
contained integer points of each polygon of `new_obstacles`. -/
def mk_obstacle_mask (new_obstacles : List ObstaclePoly) : Grid :=
  new_obstacles.foldl applyPoly ones

/-- `FARRTStar2.update_potential_field` (farrtstar2.py lines
191-224): build the mask, blur `obstacle_mask * obstacle_value`
(`obstacle_value = 5`, `sigma = 3` is a property of the supplied
`blur`), take `dy, dx = np.gradient(blurred_mask)`, and accumulate
`field[:,:,0] += dx`, `field[:,:,1] += dy`.  Only the potential
field is read or written. -/
def update_potential_field (blur : Grid → Grid) (grad : Grid → Grid × Grid)
    (field : Grid × Grid) (new_obstacles : List ObstaclePoly) : Grid × Grid :=
  let obstacle_mask := mk_obstacle_mask new_obstacles
  let g := grad (blur (fun y x => obstacle_mask y x * 5))
  (fun y x => field.1 y x + g.2 y x, fun y x => field.2 y x + g.1 y x)

/-- The pipeline as the specification words it (spec section 4.8):
identical except that `m = (1 − mask) · obstacle_value` is fed to
the blur.  Stated for comparison with `update_potential_field`. -/
def update_potential_field_spec_words (blur : Grid → Grid)
    (grad : Grid → Grid × Grid) (field : Grid × Grid)
    (new_obstacles : List ObstaclePoly) : Grid × Grid :=
  let obstacle_mask := mk_obstacle_mask new_obstacles
  let g := grad (blur (fun y x => (1 - obstacle_mask y x) * 5))
  (fun y x => field.1 y x + g.2 y x, fun y x => field.2 y x + g.1 y x)

/-- Membership in an inclusive integer range. -/
theorem mem_intRange (lo hi x : ℤ) : x ∈ intRange lo hi ↔ lo ≤ x ∧ x ≤ hi := by
  unfold intRange
  rw [List.mem_map]
  constructor
  · rintro ⟨k, hk, hkx⟩
    rw [List.mem_range] at hk
    omega
  · intro h
    refine ⟨(x - lo).toNat, ?_, ?_⟩
    · rw [List.mem_range]
      omega
    · omega

/-- Pointwise value of the inner mask loop. -/
theorem applyPolyInner_eval (p : ObstaclePoly) (x : ℤ) (ys : List ℤ) (m : Grid)
    (y0 x0 : ℤ) :
    applyPolyInner p x ys m y0 x0 =
      if x0 = x ∧ y0 ∈ ys ∧ p.containsInt x y0 = true then 0 else m y0 x0 := by
  induction ys generalizing m with
  | nil => simp [applyPolyInner]
  | cons y tl ih =>
    unfold applyPolyInner
    simp only [List.foldl_cons]
    rw [show (List.foldl (fun acc y => if p.containsInt x y = true then setCell acc y x 0 else acc)
          (if p.containsInt x y = true then setCell m y x 0 else m) tl) y0 x0 =
        applyPolyInner p x tl (if p.containsInt x y = true then setCell m y x 0 else m) y0 x0 from rfl]
    rw [ih]
    by_cases h1 : x0 = x ∧ y0 ∈ tl ∧ p.containsInt x y0 = true
    · rw [if_pos h1, if_pos ⟨h1.1, List.mem_cons_of_mem _ h1.2.1, h1.2.2⟩]
    · rw [if_neg h1]
      by_cases h2 : x0 = x ∧ y0 ∈ y :: tl ∧ p.containsInt x y0 = true
      · rw [if_pos h2]
        obtain ⟨hx, hmem, hc⟩ := h2
        have hy : y0 = y := by
          rcases List.mem_cons.mp hmem with h | h
          · exact h
          · exact absurd ⟨hx, h, hc⟩ h1
        subst hy
        subst hx
        rw [if_pos hc]
        simp [setCell]
      · rw [if_neg h2]
        by_cases hcy : p.containsInt x y = true
        · rw [if_pos hcy]
          have hne : ¬(y0 = y ∧ x0 = x) := by
            rintro ⟨hy, hx⟩
            refine h2 ⟨hx, ?_, ?_⟩
            · rw [hy]
              exact List.mem_cons_self y tl
            · rw [hy]
              exact hcy
          unfold setCell
          rw [if_neg hne]
        · rw [if_neg hcy]

/-- Pointwise value of the outer mask loop over a column list. -/
theorem applyPolyFold_eval (p : ObstaclePoly) (xs ys : List ℤ) (m : Grid) (y0 x0 : ℤ) :
    (xs.foldl (fun acc x => applyPolyInner p x ys acc) m) y0 x0 =
      if x0 ∈ xs ∧ y0 ∈ ys ∧ p.containsInt x0 y0 = true then 0 else m y0 x0 := by
  induction xs generalizing m with
  | nil => simp
  | cons x tl ih =>
    simp only [List.foldl_cons]
    rw [ih, applyPolyInner_eval]
    by_cases h1 : x0 ∈ tl ∧ y0 ∈ ys ∧ p.containsInt x0 y0 = true
    · rw [if_pos h1, if_pos ⟨List.mem_cons_of_mem _ h1.1, h1.2⟩]
    · rw [if_neg h1]
      by_cases h2 : x0 = x ∧ y0 ∈ ys ∧ p.containsInt x y0 = true
      · have hmem : x0 ∈ x :: tl := by
          rw [h2.1]
          exact List.mem_cons_self x tl
        have hc : p.containsInt x0 y0 = true := by
          rw [h2.1]
          exact h2.2.2
        rw [if_pos h2, if_pos ⟨hmem, h2.2.1, hc⟩]
      · rw [if_neg h2]
        by_cases h3 : x0 ∈ x :: tl ∧ y0 ∈ ys ∧ p.containsInt x0 y0 = true
        · exfalso
          obtain ⟨hmem, hys, hc⟩ := h3
          rcases List.mem_cons.mp hmem with h | h
          · refine h2 ⟨h, hys, ?_⟩
            rw [← h]
            exact hc
          · exact h1 ⟨h, hys, hc⟩
        · rw [if_neg h3]

/-- Pointwise value of the mask update for one polygon: a cell is
zeroed exactly when the polygon contains it (containment puts the
cell inside the floor/ceil bounding ranges). -/
theorem applyPoly_eval (m : Grid) (p : ObstaclePoly) (y0 x0 : ℤ) :
    applyPoly m p y0 x0 =
      if p.containsInt x0 y0 = true then 0 else m y0 x0 := by
  unfold applyPoly
  rw [applyPolyFold_eval]
  by_cases hc : p.containsInt x0 y0 = true
  · rw [if_pos hc]
    obtain ⟨h1, h2, h3, h4⟩ := p.contains_in_bounds x0 y0 hc
    have hx1 : Int.floor p.minx ≤ x0 := by
      have := Int.floor_le_floor (α := ℚ) h1
      rwa [Int.floor_intCast] at this
    have hx2 : x0 ≤ Int.ceil p.maxx := by
      have := Int.ceil_le_ceil (α := ℚ) h2
      rwa [Int.ceil_intCast] at this
    have hy1 : Int.floor p.miny ≤ y0 := by
      have := Int.floor_le_floor (α := ℚ) h3
      rwa [Int.floor_intCast] at this
    have hy2 : y0 ≤ Int.ceil p.maxy := by
      have := Int.ceil_le_ceil (α := ℚ) h4
      rwa [Int.ceil_intCast] at this
    rw [if_pos ⟨(mem_intRange _ _ _).mpr ⟨hx1, hx2⟩,
      (mem_intRange _ _ _).mpr ⟨hy1, hy2⟩, hc⟩]
  · rw [if_neg hc, if_neg]
    intro h
    exact hc h.2.2

/-- Pointwise value of the whole obstacle mask: `0` at the integer
points contained in some obstacle polygon, `1` elsewhere. -/
theorem mk_obstacle_mask_eval (obs : List ObstaclePoly) (y0 x0 : ℤ) :
    mk_obstacle_mask obs y0 x0 =
      if ∃ p ∈ obs, p.containsInt x0 y0 = true then 0 else 1 := by
  suffices h : ∀ m : Grid, (obs.foldl applyPoly m) y0 x0 =
      if ∃ p ∈ obs, p.containsInt x0 y0 = true then 0 else m y0 x0 by
    have := h ones
    unfold mk_obstacle_mask
    rw [this]
    rfl
  intro m
  induction obs generalizing m with
  | nil => simp
  | cons p tl ih =>
    simp only [List.foldl_cons]
    rw [ih]
    by_cases h1 : ∃ q ∈ tl, q.containsInt x0 y0 = true
    · obtain ⟨q, hq, hc⟩ := h1
      rw [if_pos ⟨q, hq, hc⟩, if_pos ⟨q, List.mem_cons_of_mem _ hq, hc⟩]
    · rw [if_neg h1, applyPoly_eval]
      by_cases h2 : p.containsInt x0 y0 = true
      · rw [if_pos h2, if_pos ⟨p, List.mem_cons_self p tl, h2⟩]
      · rw [if_neg h2, if_neg]
        rintro ⟨q, hq, hc⟩
        rcases List.mem_cons.mp hq with h | h
        · subst h
          exact h2 hc
        · exact h1 ⟨q, h, hc⟩

/-- C6 amended: `update_potential_field` builds the binary mask
(`mask[y,x] = 0` iff some new polygon contains `(x, y)`, else `1`),
feeds `mask · 5` — not `(1 − mask) · 5` — to the blur, and adds the
`dx` component of the gradient of the blurred array into
`field[:,:,0]` and `dy` into `field[:,:,1]`. -/
theorem update_potential_field_characterization (blur : Grid → Grid)
    (grad : Grid → Grid × Grid) (field : Grid × Grid) (obs : List ObstaclePoly) :
    (∀ y x : ℤ, (mk_obstacle_mask obs y x = 0 ↔ ∃ p ∈ obs, p.containsInt x y = true)
      ∧ (mk_obstacle_mask obs y x = 0 ∨ mk_obstacle_mask obs y x = 1))
    ∧ (∀ y x : ℤ, (update_potential_field blur grad field obs).1 y x
        = field.1 y x + (grad (blur (fun y x => mk_obstacle_mask obs y x * 5))).2 y x)
    ∧ (∀ y x : ℤ, (update_potential_field blur grad field obs).2 y x
        = field.2 y x + (grad (blur (fun y x => mk_obstacle_mask obs y x * 5))).1 y x) := by
  refine ⟨fun y x => ?_, fun y x => rfl, fun y x => rfl⟩
  rw [mk_obstacle_mask_eval]
  by_cases h : ∃ p ∈ obs, p.containsInt x y = true
  · rw [if_pos h]
    exact ⟨⟨fun _ => h, fun _ => rfl⟩, Or.inl rfl⟩
  · rw [if_neg h]
    refine ⟨⟨fun h10 => absurd h10 one_ne_zero, fun hex => absurd hex h⟩, Or.inr rfl⟩

/-- Zero-initialized potential field (`np.zeros`). -/
def zeroField : Grid × Grid := (fun _ _ => 0, fun _ _ => 0)

/-- The duplicate "gradient", a concrete array-to-arrays function
used to separate the two pipelines. -/
def gradDup : Grid → Grid × Grid := fun g => (g, g)

/-- A concrete polygon whose bounding box and contained integer set
are the single point `(1, 1)`. -/
def polyUnit : ObstaclePoly :=
  { minx := 1, miny := 1, maxx := 1, maxy := 1,
    containsInt := fun x y => decide (x = 1) && decide (y = 1),
    contains_in_bounds := by
      intro x y h
      simp only [Bool.and_eq_true, decide_eq_true_eq] at h
      obtain ⟨hx, hy⟩ := h
      subst hx
      subst hy
      norm_num }

/-- C6 counterexample: with identity blur and the duplicate
gradient, the code pipeline (which blurs `mask · 5`) leaves
`field[1,1,0] = 0`, while the spec-worded pipeline (which blurs
`(1 − mask) · 5`) yields `5`: the code does not compute the claimed
`(1 − mask) · 5` array. -/
theorem update_potential_field_blurs_mask_not_complement :
    (update_potential_field id gradDup zeroField [polyUnit]).1 1 1 = 0
    ∧ (update_potential_field_spec_words id gradDup zeroField [polyUnit]).1 1 1 = 5
    ∧ decide ((0 : ℚ) = 5) = false := by
  have hcontains : polyUnit.containsInt 1 1 = true := by
    unfold polyUnit
    simp
  have hmask : mk_obstacle_mask [polyUnit] 1 1 = 0 := by
    rw [mk_obstacle_mask_eval,
      if_pos ⟨polyUnit, List.mem_cons_self _ _, hcontains⟩]
  refine ⟨?_, ?_, by decide⟩
  · show zeroField.1 1 1 +
      (gradDup (id (fun y x => mk_obstacle_mask [polyUnit] y x * 5))).2 1 1 = 0
    unfold gradDup zeroField
    simp only [id_eq]
    rw [hmask]
    norm_num
  · show zeroField.1 1 1 +
      (gradDup (id (fun y x => (1 - mk_obstacle_mask [polyUnit] y x) * 5))).2 1 1 = 5
    unfold gradDup zeroField
    simp only [id_eq]
    rw [hmask]
    norm_num

/-- C10: with no obstacle polygons the mask is identically `1`, the
blurred array is the constant `5`, and the gradient of a constant
array vanishes, so the potential field is unchanged entry for
entry.  The hypotheses are the interface facts for the external
`gaussian_filter` (a normalized kernel preserves constant arrays)
and `np.gradient` (the gradient of a constant array is zero). -/
theorem update_potential_field_empty_obstacles_identity
    (blur : Grid → Grid) (grad : Grid → Grid × Grid) (field : Grid × Grid)
    (hblur : ∀ g : Grid, (∀ y x : ℤ, g y x = 5) → ∀ y x : ℤ, blur g y x = 5)
    (hgrad : ∀ g : Grid, (∀ y x : ℤ, g y x = 5) →
      ∀ y x : ℤ, (grad g).1 y x = 0 ∧ (grad g).2 y x = 0) :
    ∀ y x : ℤ, (update_potential_field blur grad field []).1 y x = field.1 y x
      ∧ (update_potential_field blur grad field []).2 y x = field.2 y x := by
  have hm : ∀ y x : ℤ, (fun y x => mk_obstacle_mask [] y x * 5) y x = 5 := by
    intro y x
    show mk_obstacle_mask [] y x * 5 = 5
    rw [mk_obstacle_mask_eval]
    simp
  have hb := hblur _ hm
  have hg := hgrad _ hb
  intro y x
  constructor
  · show field.1 y x +
      (grad (blur (fun y x => mk_obstacle_mask [] y x * 5))).2 y x = field.1 y x
    rw [(hg y x).2, add_zero]
  · show field.2 y x +
      (grad (blur (fun y x => mk_obstacle_mask [] y x * 5))).1 y x = field.2 y x
    rw [(hg y x).1, add_zero]

/-- Forward-difference gradient, a concrete instance of the
gradient interface. -/
def gradFD : Grid → Grid × Grid :=
  fun g => (fun y x => g (y + 1) x - g y x, fun y x => g y (x + 1) - g y x)

/-- Witness for `update_potential_field_empty_obstacles_identity`
with identity blur and the forward-difference gradient, evaluated
at cell `(0, 0)` of the zero field. -/
theorem update_potential_field_empty_obstacles_identity_witness :
    ((update_potential_field id gradFD zeroField []).1 0 0 = zeroField.1 0 0)
    ∧ ((update_potential_field id gradFD zeroField []).2 0 0 = zeroField.2 0 0) :=
  update_potential_field_empty_obstacles_identity id gradFD zeroField
    (fun _ hg y x => hg y x)
    (fun g hg y x => by
      constructor
      · show g (y + 1) x - g y x = 0
        rw [hg (y + 1) x, hg y x, sub_self]
      · show g y (x + 1) - g y x = 0
        rw [hg y (x + 1), hg y x, sub_self])
    0 0
